import Mathlib

/-!
Verification of the teal thermal-transport kernels.

The C++ kernels compute per-quadrature-point residual and Jacobian
contributions over machine doubles; here the arithmetic is embedded over the
exact rationals so that the algebraic relations the kernels are meant to
satisfy can be stated and settled precisely.  Each definition mirrors one
function (or one loop) of the source, keeping the source names.
-/

/-- Dot product of two 3-vectors, as written in the source with the
overloaded vector times vector product. -/
def dot3 (a b : ℕ → ℚ) : ℚ :=
  a 0 * b 0 + a 1 * b 1 + a 2 * b 2

namespace HeatAdvectionConservative

/-- Element-local data used by fullUpwind: per-quadrature-point quadrature
weights, coordinate factors, coupled field values and velocity components,
per-node test-function gradients per quadrature point, and the nodal dof
values of the unknown.  nNodes is the test-function count and nPhi the
trial-function count of the element. -/
structure Elem where
  nNodes : ℕ
  nPhi : ℕ
  nQp : ℕ
  JxW : ℕ → ℚ
  coord : ℕ → ℚ
  density : ℕ → ℚ
  heat_cap : ℕ → ℚ
  volfrac : ℕ → ℚ
  ux : ℕ → ℚ
  uy : ℕ → ℚ
  uz : ℕ → ℚ
  grad_test : ℕ → ℕ → ℕ → ℚ
  u_nodal : ℕ → ℚ

/-- The velocity vector assembled from the three coupled components at one
quadrature point (the _vec member in the source). -/
def vecAt (e : Elem) (qp : ℕ) : ℕ → ℚ :=
  fun k => if k = 0 then e.ux qp else if k = 1 then e.uy qp else e.uz qp

/-- HeatAdvectionConservative::negSpeedQp for test function i at quadrature
point qp: -(grad_test . v) * density * heat_cap * volfrac. -/
def negSpeedQp (e : Elem) (i qp : ℕ) : ℚ :=
  -(dot3 (e.grad_test i qp) (vecAt e qp)) * e.density qp * e.heat_cap qp * e.volfrac qp

/-- The raw nodal outflux stored into _local_re(i) by the first loop of
fullUpwind: the sum over quadrature points of JxW * coord * negSpeedQp. -/
def rawFlux (e : Elem) (i : ℕ) : ℚ :=
  Finset.sum (Finset.range e.nQp) (fun qp => e.JxW qp * e.coord qp * negSpeedQp e i qp)

/-- The upwind classification _upwind_node[i] = (_local_re(i) >= 0.0). -/
def upwindNode (e : Elem) (i : ℕ) : Bool :=
  decide (0 ≤ rawFlux e i)

/-- total_mass_out accumulated over the upwind (outflow) nodes:
each contributes _local_re(n) * _u_nodal[n]. -/
def totalMassOut (e : Elem) : ℚ :=
  Finset.sum (Finset.range e.nNodes)
    (fun n => if upwindNode e n then rawFlux e n * e.u_nodal n else 0)

/-- total_in accumulated over the downwind (inflow) nodes via
total_in -= _local_re(n), so each inflow node contributes -rawFlux n. -/
def totalIn (e : Elem) : ℚ :=
  Finset.sum (Finset.range e.nNodes)
    (fun n => if upwindNode e n then 0 else -(rawFlux e n))

/-- The value of _local_re(n) at the end of fullUpwind: outflow nodes carry
rawFlux n * u_nodal n, inflow nodes carry the redistributed value
rawFlux n * (total_mass_out / total_in); entries beyond the element node
count stay at the zero written by prepareVectorTag. -/
def localReOut (e : Elem) (n : ℕ) : ℚ :=
  if n < e.nNodes then
    if upwindNode e n then rawFlux e n * e.u_nodal n
    else rawFlux e n * (totalMassOut e / totalIn e)
  else 0

end HeatAdvectionConservative

open HeatAdvectionConservative in
/-- Claim C1: for every element with totalIn > 0, full upwinding is
mass-conservative: the sum of rawFlux i * u_nodal i over outflow nodes
equals the negative of the sum of the redistributed values
rawFlux i * (totalMassOut / totalIn) over inflow nodes. -/
theorem fullUpwind_mass_conservation (e : Elem) (h : 0 < totalIn e) :
    Finset.sum (Finset.range e.nNodes)
      (fun n => if upwindNode e n then rawFlux e n * e.u_nodal n else 0)
      = -(Finset.sum (Finset.range e.nNodes)
          (fun n => if upwindNode e n then 0
                    else rawFlux e n * (totalMassOut e / totalIn e))) := by
  have hne : totalIn e ≠ 0 := ne_of_gt h
  have h1 : Finset.sum (Finset.range e.nNodes)
      (fun n => if upwindNode e n then (0 : ℚ)
                else rawFlux e n * (totalMassOut e / totalIn e))
      = (Finset.sum (Finset.range e.nNodes)
          (fun n => if upwindNode e n then (0 : ℚ) else rawFlux e n))
        * (totalMassOut e / totalIn e) := by
    rw [Finset.sum_mul]
    refine Finset.sum_congr rfl (fun n _ => ?_)
    by_cases hu : upwindNode e n <;> simp [hu]
  have h2 : Finset.sum (Finset.range e.nNodes)
      (fun n => if upwindNode e n then (0 : ℚ) else rawFlux e n)
      = -(totalIn e) := by
    unfold totalIn
    rw [← Finset.sum_neg_distrib]
    refine Finset.sum_congr rfl (fun n _ => ?_)
    by_cases hu : upwindNode e n <;> simp [hu]
  have h3 : Finset.sum (Finset.range e.nNodes)
      (fun n => if upwindNode e n then rawFlux e n * e.u_nodal n else 0)
      = totalMassOut e := rfl
  rw [h1, h2, h3]
  field_simp

/-- A concrete two-node, one-quadrature-point element with one outflow node
and one inflow node, used as a witness element. -/
def elemA : HeatAdvectionConservative.Elem where
  nNodes := 2
  nPhi := 2
  nQp := 1
  JxW := fun _ => 1
  coord := fun _ => 1
  density := fun _ => 1
  heat_cap := fun _ => 1
  volfrac := fun _ => 1
  ux := fun _ => 1
  uy := fun _ => 0
  uz := fun _ => 0
  grad_test := fun i _ k =>
    if k = 0 then (if i = 0 then 1 else -1) else 0
  u_nodal := fun n => if n = 0 then 3 else 2

open HeatAdvectionConservative in
/-- Witness for C1 at the concrete element elemA, which has one inflow node
so totalIn is positive there. -/
theorem fullUpwind_mass_conservation_witness :
    0 < totalIn elemA ∧
    Finset.sum (Finset.range elemA.nNodes)
      (fun n => if upwindNode elemA n then rawFlux elemA n * elemA.u_nodal n else 0)
      = -(Finset.sum (Finset.range elemA.nNodes)
          (fun n => if upwindNode elemA n then 0
                    else rawFlux elemA n * (totalMassOut elemA / totalIn elemA))) :=
  ⟨by norm_num [totalIn, upwindNode, rawFlux, negSpeedQp, vecAt, dot3, elemA,
      Finset.sum_range_succ],
   fullUpwind_mass_conservation elemA
    (by norm_num [totalIn, upwindNode, rawFlux, negSpeedQp, vecAt, dot3, elemA,
        Finset.sum_range_succ])⟩

open HeatAdvectionConservative in
/-- Claim C2: if totalIn = 0 then every node of the element is classified
outflow, so the redistribution branch (the only place that divides by
totalIn) executes for no node, and every node keeps its raw outflow value
rawFlux n * u_nodal n in the final local residual. -/
theorem fullUpwind_pure_outflow_no_redistribution (e : Elem) (h : totalIn e = 0) :
    (∀ n ∈ Finset.range e.nNodes, upwindNode e n = true) ∧
    (∀ n ∈ Finset.range e.nNodes, localReOut e n = rawFlux e n * e.u_nodal n) := by
  have hnonneg : ∀ m ∈ Finset.range e.nNodes,
      0 ≤ (if upwindNode e m then (0 : ℚ) else -(rawFlux e m)) := by
    intro m _
    by_cases hm : upwindNode e m = true
    · simp [hm]
    · have hlt : ¬ (0 ≤ rawFlux e m) := by
        simpa [upwindNode] using hm
      simp only [hm, if_neg]
      simp
      linarith [lt_of_not_le hlt]
  have hall : ∀ n ∈ Finset.range e.nNodes, upwindNode e n = true := by
    intro n hn
    by_cases hu : upwindNode e n = true
    · exact hu
    · have hz := (Finset.sum_eq_zero_iff_of_nonneg hnonneg).mp h n hn
      have hterm : -(rawFlux e n) = 0 := by simpa [hu] using hz
      have hge : (0 : ℚ) ≤ rawFlux e n := by linarith
      exact absurd (by simpa [upwindNode] using hge) hu
  refine ⟨hall, fun n hn => ?_⟩
  have hu := hall n hn
  have hlt : n < e.nNodes := Finset.mem_range.mp hn
  simp [localReOut, hlt, hu]

/-- A concrete two-node element in which both nodes are outflow nodes, so
totalIn vanishes. -/
def elemB : HeatAdvectionConservative.Elem where
  nNodes := 2
  nPhi := 2
  nQp := 1
  JxW := fun _ => 1
  coord := fun _ => 1
  density := fun _ => 1
  heat_cap := fun _ => 1
  volfrac := fun _ => 1
  ux := fun _ => 1
  uy := fun _ => 0
  uz := fun _ => 0
  grad_test := fun _ _ k => if k = 0 then -1 else 0
  u_nodal := fun n => if n = 0 then 3 else 2

open HeatAdvectionConservative in
/-- Witness for C2 at the purely outflow element elemB. -/
theorem fullUpwind_pure_outflow_witness :
    totalIn elemB = 0 ∧ upwindNode elemB 0 = true ∧
      localReOut elemB 0 = rawFlux elemB 0 * elemB.u_nodal 0 := by
  have h0 : totalIn elemB = 0 := by
    norm_num [totalIn, upwindNode, rawFlux, negSpeedQp, vecAt, dot3, elemB,
      Finset.sum_range_succ]
  refine ⟨h0, ?_, ?_⟩
  · exact (fullUpwind_pure_outflow_no_redistribution elemB h0).1 0 (by simp [elemB])
  · exact (fullUpwind_pure_outflow_no_redistribution elemB h0).2 0 (by simp [elemB])

open HeatAdvectionConservative in
/-- Claim C3: a node is classified outflow (upwind) precisely when its raw
nodal outflux is nonnegative, and in particular a tie rawFlux i = 0 is
classified as outflow. -/
theorem upwind_classification_sign (e : Elem) (i : ℕ) :
    (upwindNode e i = true ↔ 0 ≤ rawFlux e i) ∧
    (rawFlux e i = 0 → upwindNode e i = true) := by
  constructor
  · simp [upwindNode]
  · intro h
    simp [upwindNode, h]

/-- A concrete element whose velocity field is identically zero, so every
raw nodal outflux is exactly zero (the tie case). -/
def elemC : HeatAdvectionConservative.Elem where
  nNodes := 2
  nPhi := 2
  nQp := 1
  JxW := fun _ => 1
  coord := fun _ => 1
  density := fun _ => 1
  heat_cap := fun _ => 1
  volfrac := fun _ => 1
  ux := fun _ => 0
  uy := fun _ => 0
  uz := fun _ => 0
  grad_test := fun i _ k => if k = 0 then (if i = 0 then 1 else -1) else 0
  u_nodal := fun _ => 1

open HeatAdvectionConservative in
/-- Witness for C3: the tie node of elemC is classified outflow. -/
theorem upwind_classification_sign_witness :
    rawFlux elemC 0 = 0 ∧ upwindNode elemC 0 = true := by
  have h0 : rawFlux elemC 0 = 0 := by
    norm_num [rawFlux, negSpeedQp, vecAt, dot3, elemC, Finset.sum_range_succ]
  exact ⟨h0, (upwind_classification_sign elemC 0).2 h0⟩

namespace HeatAdvectionConservative

/-- The JacRes selector passed to fullUpwind. -/
inductive JacRes where
  | CALCULATE_RESIDUAL : JacRes
  | CALCULATE_JACOBIAN : JacRes

/-- The value of _local_ke(n, j) after the outflow-accounting loop of a
Jacobian pass: the diagonal entry of an in-range upwind node receives
_local_re(n) (the raw flux) only when the test-function count equals the
trial-function count; every other entry keeps the zero written by
prepareMatrixTag. -/
def keAfterOutflow (e : Elem) (n j : ℕ) : ℚ :=
  if n = j ∧ n < e.nNodes ∧ upwindNode e n = true ∧ e.nNodes = e.nPhi
  then rawFlux e n else 0

/-- _dtotal_mass_out[n]: assigned zero for every node, then incremented by
_local_ke(n, n) for each in-range upwind node. -/
def dtotal_mass_out (e : Elem) (n : ℕ) : ℚ :=
  if n < e.nNodes ∧ upwindNode e n = true then keAfterOutflow e n n else 0

/-- The value of _local_ke(n, j) at the end of a Jacobian pass: the
redistribution loop adds _local_re(n) * _dtotal_mass_out[j] / total_in on
each row of an in-range downwind node, for each trial index j. -/
def keFinal (e : Elem) (n j : ℕ) : ℚ :=
  keAfterOutflow e n j +
    (if n < e.nNodes ∧ upwindNode e n = false ∧ j < e.nPhi
     then rawFlux e n * dtotal_mass_out e j / totalIn e else 0)

/-- The assembler-side state touched by fullUpwind: the reusable local
residual vector and local Jacobian matrix, and the tagged (assembled)
residual and matrix they are accumulated into.  The optional save-in
write-back targets auxiliary solution storage, not these structures, and is
not modelled. -/
structure AsmState where
  local_re : ℕ → ℚ
  local_ke : ℕ → ℕ → ℚ
  tagged_residual : ℕ → ℚ
  tagged_matrix : ℕ → ℕ → ℚ

/-- HeatAdvectionConservative::fullUpwind as a transformer of the assembler
state: prepareVectorTag zeroes the local residual (in both modes) and the
two loops leave it at localReOut; on a Jacobian pass prepareMatrixTag
zeroes the local matrix and the loops leave it at keFinal, and
accumulateTaggedLocalMatrix adds it to the tagged matrix; on a residual
pass accumulateTaggedLocalResidual adds the local residual to the tagged
residual and the local matrix is never touched. -/
def fullUpwind (e : Elem) (res_or_jac : JacRes) (s : AsmState) : AsmState :=
  { local_re := fun n => localReOut e n
    local_ke :=
      match res_or_jac with
      | JacRes.CALCULATE_JACOBIAN => fun n j => keFinal e n j
      | JacRes.CALCULATE_RESIDUAL => s.local_ke
    tagged_residual :=
      match res_or_jac with
      | JacRes.CALCULATE_RESIDUAL => fun n => s.tagged_residual n + localReOut e n
      | JacRes.CALCULATE_JACOBIAN => s.tagged_residual
    tagged_matrix :=
      match res_or_jac with
      | JacRes.CALCULATE_JACOBIAN => fun n j => s.tagged_matrix n j + keFinal e n j
      | JacRes.CALCULATE_RESIDUAL => s.tagged_matrix }

end HeatAdvectionConservative

open HeatAdvectionConservative in
/-- Claim C8: in the Jacobian pass, an upwind node receives the diagonal
contribution rawFlux n exactly when the test-function count equals the
trial-function count; when the counts differ, dtotal_mass_out stays at the
freshly zeroed matrix entry (zero) and the inflow redistribution adds zero
to every Jacobian row. -/
theorem fullUpwind_jacobian_diag_nodal_lagrange (e : Elem) (n j : ℕ)
    (hn : n < e.nNodes) :
    (e.nNodes = e.nPhi → upwindNode e n = true →
      keAfterOutflow e n n = rawFlux e n) ∧
    (e.nNodes ≠ e.nPhi →
      dtotal_mass_out e n = 0 ∧ keFinal e n j = keAfterOutflow e n j) := by
  constructor
  · intro hsz hu
    unfold keAfterOutflow
    rw [if_pos ⟨rfl, hn, hu, hsz⟩]
  · intro hsz
    have hd : ∀ m, dtotal_mass_out e m = 0 := by
      intro m
      simp [dtotal_mass_out, keAfterOutflow, hsz]
    refine ⟨hd n, ?_⟩
    simp [keFinal, hd]

/-- A concrete element whose trial-function count differs from its
test-function count (the constant-monomial situation). -/
def elemM : HeatAdvectionConservative.Elem where
  nNodes := 2
  nPhi := 1
  nQp := 1
  JxW := fun _ => 1
  coord := fun _ => 1
  density := fun _ => 1
  heat_cap := fun _ => 1
  volfrac := fun _ => 1
  ux := fun _ => 1
  uy := fun _ => 0
  uz := fun _ => 0
  grad_test := fun i _ k => if k = 0 then (if i = 0 then 1 else -1) else 0
  u_nodal := fun _ => 1

open HeatAdvectionConservative in
/-- Witness for C8: the matched-count case at elemA and the mismatched-count
case at elemM. -/
theorem fullUpwind_jacobian_diag_witness :
    keAfterOutflow elemA 1 1 = rawFlux elemA 1 ∧
    (dtotal_mass_out elemM 0 = 0 ∧ keFinal elemM 0 0 = keAfterOutflow elemM 0 0) := by
  constructor
  · exact (fullUpwind_jacobian_diag_nodal_lagrange elemA 1 0
      (by norm_num [elemA])).1 rfl
      (by norm_num [upwindNode, rawFlux, negSpeedQp, vecAt, dot3, elemA,
        Finset.sum_range_succ])
  · exact (fullUpwind_jacobian_diag_nodal_lagrange elemM 0 0
      (by norm_num [elemM])).2 (by norm_num [elemM])

open HeatAdvectionConservative in
/-- Claim C10: a residual pass leaves the local and tagged Jacobian matrix
unchanged and its outputs do not depend on them, and a Jacobian pass leaves
the tagged residual unchanged (the local residual is used only as
scratch). -/
theorem fullUpwind_frame_separation (e : Elem) (s : AsmState) :
    (fullUpwind e JacRes.CALCULATE_RESIDUAL s).local_ke = s.local_ke ∧
    (fullUpwind e JacRes.CALCULATE_RESIDUAL s).tagged_matrix = s.tagged_matrix ∧
    (fullUpwind e JacRes.CALCULATE_JACOBIAN s).tagged_residual = s.tagged_residual ∧
    (∀ ke m,
      (fullUpwind e JacRes.CALCULATE_RESIDUAL
          { s with local_ke := ke, tagged_matrix := m }).tagged_residual
        = (fullUpwind e JacRes.CALCULATE_RESIDUAL s).tagged_residual ∧
      (fullUpwind e JacRes.CALCULATE_RESIDUAL
          { s with local_ke := ke, tagged_matrix := m }).local_re
        = (fullUpwind e JacRes.CALCULATE_RESIDUAL s).local_re) :=
  ⟨rfl, rfl, rfl, fun _ _ => ⟨rfl, rfl⟩⟩

namespace HeatAdvectionConservative

/-- Per-quadrature-point data for the off-diagonal Jacobian of the
non-upwinded advection kernel. -/
structure Qp where
  u : ℚ
  phi : ℚ
  grad_test : ℕ → ℚ
  density : ℚ
  heat_cap : ℚ
  volfrac : ℚ
  ux : ℚ
  uy : ℚ
  uz : ℚ

/-- The coupled-variable identifiers declared by the kernel. -/
structure Vars where
  density_var : ℕ
  heat_cap_var : ℕ
  volfrac_var : ℕ
  ux_var : ℕ
  uy_var : ℕ
  uz_var : ℕ

/-- The _vec member assembled at the top of computeQpOffDiagJacobian. -/
def vecQ (q : Qp) : ℕ → ℚ :=
  fun k => if k = 0 then q.ux else if k = 1 then q.uy else q.uz

/-- HeatAdvectionConservative::computeQpOffDiagJacobian: the sequential
comparisons of jvar against the velocity, density, heat capacity and
volume fraction variable numbers, falling through to 0. -/
def computeQpOffDiagJacobian (v : Vars) (q : Qp) (jvar : ℕ) : ℚ :=
  if jvar = v.ux_var then
    -q.u * (q.phi * q.grad_test 0) * q.density * q.heat_cap * q.volfrac
  else if jvar = v.uy_var then
    -q.u * (q.phi * q.grad_test 1) * q.density * q.heat_cap * q.volfrac
  else if jvar = v.uz_var then
    -q.u * (q.phi * q.grad_test 2) * q.density * q.heat_cap * q.volfrac
  else if jvar = v.density_var then
    -q.u * dot3 q.grad_test (vecQ q) * q.phi * q.heat_cap * q.volfrac
  else if jvar = v.heat_cap_var then
    -q.u * dot3 q.grad_test (vecQ q) * q.density * q.phi * q.volfrac
  else if jvar = v.volfrac_var then
    -q.u * dot3 q.grad_test (vecQ q) * q.density * q.heat_cap * q.phi
  else 0

end HeatAdvectionConservative

namespace ThermalFluidFluxBC

/-- Per-boundary-quadrature-point data for ThermalFluidFluxBC. -/
structure Qp where
  test : ℚ
  phi : ℚ
  u : ℚ
  density : ℚ
  heat_cap : ℚ
  volfrac : ℚ
  ux : ℚ
  uy : ℚ
  uz : ℚ
  normal : ℕ → ℚ
  outside_temp : ℚ

/-- The coupled-variable identifiers declared by the boundary kernel. -/
structure Vars where
  density_var : ℕ
  heat_cap_var : ℕ
  volfrac_var : ℕ
  ux_var : ℕ
  uy_var : ℕ
  uz_var : ℕ
  outside_temp_var : ℕ

/-- The _vec member assembled from the three velocity components. -/
def vecQ (q : Qp) : ℕ → ℚ :=
  fun k => if k = 0 then q.ux else if k = 1 then q.uy else q.uz

/-- The advective flux direction _vec * _normals[_qp]. -/
def vdotn (q : Qp) : ℚ :=
  dot3 (vecQ q) q.normal

/-- The output-branch expression of computeQpResidual (taken when
vdotn > 0): test * (v . n) * u * density * heat_cap * volfrac. -/
def outflowBranchRes (q : Qp) : ℚ :=
  q.test * vdotn q * q.u * q.density * q.heat_cap * q.volfrac

/-- The input-branch expression of computeQpResidual (taken when
vdotn <= 0): test * (v . n) * outside_temp * density * heat_cap *
volfrac. -/
def inflowBranchRes (q : Qp) : ℚ :=
  q.test * vdotn q * q.outside_temp * q.density * q.heat_cap * q.volfrac

/-- ThermalFluidFluxBC::computeQpResidual. -/
def computeQpResidual (q : Qp) : ℚ :=
  if 0 < vdotn q then outflowBranchRes q else inflowBranchRes q

/-- ThermalFluidFluxBC::computeQpJacobian: the input branch adds 0.0. -/
def computeQpJacobian (q : Qp) : ℚ :=
  if 0 < vdotn q then
    q.test * vdotn q * q.phi * q.density * q.heat_cap * q.volfrac
  else 0

/-- ThermalFluidFluxBC::computeQpOffDiagJacobian: sequential comparisons of
jvar against the three velocity variable numbers, each returning the
branch-selected derivative of the dot product, falling through to 0. -/
def computeQpOffDiagJacobian (v : Vars) (q : Qp) (jvar : ℕ) : ℚ :=
  if jvar = v.ux_var then
    (if 0 < vdotn q then
      q.test * q.u * (q.phi * q.normal 0) * q.density * q.heat_cap * q.volfrac
     else
      q.test * q.outside_temp * (q.phi * q.normal 0) * q.density * q.heat_cap * q.volfrac)
  else if jvar = v.uy_var then
    (if 0 < vdotn q then
      q.test * q.u * (q.phi * q.normal 1) * q.density * q.heat_cap * q.volfrac
     else
      q.test * q.outside_temp * (q.phi * q.normal 1) * q.density * q.heat_cap * q.volfrac)
  else if jvar = v.uz_var then
    (if 0 < vdotn q then
      q.test * q.u * (q.phi * q.normal 2) * q.density * q.heat_cap * q.volfrac
     else
      q.test * q.outside_temp * (q.phi * q.normal 2) * q.density * q.heat_cap * q.volfrac)
  else 0

end ThermalFluidFluxBC

open ThermalFluidFluxBC in
/-- Claim C4: the boundary-kernel Jacobian with respect to the primary
unknown is zero on the inflow branch (vdotn <= 0) and equals
test * (v . n) * phi * density * heat_cap * volfrac on the outflow branch
(vdotn > 0). -/
theorem thermalFluidFluxBC_jacobian_branches (q : Qp) :
    (vdotn q ≤ 0 → computeQpJacobian q = 0) ∧
    (0 < vdotn q →
      computeQpJacobian q =
        q.test * vdotn q * q.phi * q.density * q.heat_cap * q.volfrac) := by
  constructor
  · intro h
    simp [computeQpJacobian, not_lt.mpr h]
  · intro h
    simp [computeQpJacobian, h]

/-- A concrete boundary quadrature point with outward advective flux. -/
def qOut : ThermalFluidFluxBC.Qp where
  test := 2
  phi := 3
  u := 5
  density := 1
  heat_cap := 1
  volfrac := 1
  ux := 1
  uy := 0
  uz := 0
  normal := fun k => if k = 0 then 1 else 0
  outside_temp := 7

/-- A concrete boundary quadrature point with inward advective flux. -/
def qIn : ThermalFluidFluxBC.Qp where
  test := 2
  phi := 3
  u := 5
  density := 1
  heat_cap := 1
  volfrac := 1
  ux := -1
  uy := 0
  uz := 0
  normal := fun k => if k = 0 then 1 else 0
  outside_temp := 7

open ThermalFluidFluxBC in
/-- Witness for C4 at the inflow point qIn and the outflow point qOut. -/
theorem thermalFluidFluxBC_jacobian_branches_witness :
    computeQpJacobian qIn = 0 ∧
    computeQpJacobian qOut =
      qOut.test * vdotn qOut * qOut.phi * qOut.density * qOut.heat_cap * qOut.volfrac :=
  ⟨(thermalFluidFluxBC_jacobian_branches qIn).1
    (by norm_num [vdotn, vecQ, dot3, qIn]),
   (thermalFluidFluxBC_jacobian_branches qOut).2
    (by norm_num [vdotn, vecQ, dot3, qOut])⟩

open ThermalFluidFluxBC in
/-- Claim C5: the boundary-kernel off-diagonal Jacobian with respect to each
velocity component k equals test * phi * normal k * density * heat_cap *
volfrac multiplied by the interior unknown on the outflow branch and by the
outside temperature on the inflow branch. -/
theorem thermalFluidFluxBC_offdiag_velocity (v : Vars) (q : Qp) (jvar : ℕ) :
    (jvar = v.ux_var →
      computeQpOffDiagJacobian v q jvar =
        q.test * q.phi * q.normal 0 * q.density * q.heat_cap * q.volfrac *
          (if 0 < vdotn q then q.u else q.outside_temp)) ∧
    (jvar = v.uy_var → jvar ≠ v.ux_var →
      computeQpOffDiagJacobian v q jvar =
        q.test * q.phi * q.normal 1 * q.density * q.heat_cap * q.volfrac *
          (if 0 < vdotn q then q.u else q.outside_temp)) ∧
    (jvar = v.uz_var → jvar ≠ v.ux_var → jvar ≠ v.uy_var →
      computeQpOffDiagJacobian v q jvar =
        q.test * q.phi * q.normal 2 * q.density * q.heat_cap * q.volfrac *
          (if 0 < vdotn q then q.u else q.outside_temp)) := by
  refine ⟨fun h1 => ?_, fun h1 h2 => ?_, fun h1 h2 h3 => ?_⟩
  · subst h1
    unfold computeQpOffDiagJacobian
    rw [if_pos rfl]
    split_ifs <;> ring
  · subst h1
    unfold computeQpOffDiagJacobian
    rw [if_neg h2, if_pos rfl]
    split_ifs <;> ring
  · subst h1
    unfold computeQpOffDiagJacobian
    rw [if_neg h2, if_neg h3, if_pos rfl]
    split_ifs <;> ring

/-- Concrete distinct coupled-variable numbers for the boundary kernel. -/
def bcVarsA : ThermalFluidFluxBC.Vars where
  density_var := 0
  heat_cap_var := 1
  volfrac_var := 2
  ux_var := 3
  uy_var := 4
  uz_var := 5
  outside_temp_var := 6

open ThermalFluidFluxBC in
/-- Witness for C5 at qOut for the three velocity variable numbers of
bcVarsA. -/
theorem thermalFluidFluxBC_offdiag_velocity_witness :
    computeQpOffDiagJacobian bcVarsA qOut 3 =
      qOut.test * qOut.phi * qOut.normal 0 * qOut.density * qOut.heat_cap *
        qOut.volfrac * (if 0 < vdotn qOut then qOut.u else qOut.outside_temp) ∧
    computeQpOffDiagJacobian bcVarsA qOut 4 =
      qOut.test * qOut.phi * qOut.normal 1 * qOut.density * qOut.heat_cap *
        qOut.volfrac * (if 0 < vdotn qOut then qOut.u else qOut.outside_temp) ∧
    computeQpOffDiagJacobian bcVarsA qOut 5 =
      qOut.test * qOut.phi * qOut.normal 2 * qOut.density * qOut.heat_cap *
        qOut.volfrac * (if 0 < vdotn qOut then qOut.u else qOut.outside_temp) :=
  ⟨(thermalFluidFluxBC_offdiag_velocity bcVarsA qOut 3).1 (by decide),
   (thermalFluidFluxBC_offdiag_velocity bcVarsA qOut 4).2.1 (by decide) (by decide),
   (thermalFluidFluxBC_offdiag_velocity bcVarsA qOut 5).2.2 (by decide) (by decide)
     (by decide)⟩

open ThermalFluidFluxBC in
/-- Claim C6: when the advective flux direction is exactly zero, the two
branch expressions of the boundary residual agree (both vanish), so the
residual is continuous at the branch crossing. -/
theorem thermalFluidFluxBC_residual_branch_continuity (q : Qp)
    (h : vdotn q = 0) :
    outflowBranchRes q = inflowBranchRes q ∧ computeQpResidual q = 0 := by
  constructor
  · simp [outflowBranchRes, inflowBranchRes, h]
  · simp [computeQpResidual, outflowBranchRes, inflowBranchRes, h]

/-- A concrete boundary quadrature point whose velocity is tangential to the
boundary, so the advective flux direction is exactly zero. -/
def qTangent : ThermalFluidFluxBC.Qp where
  test := 2
  phi := 3
  u := 5
  density := 1
  heat_cap := 1
  volfrac := 1
  ux := 0
  uy := 4
  uz := 0
  normal := fun k => if k = 0 then 1 else 0
  outside_temp := 7

open ThermalFluidFluxBC in
/-- Witness for C6 at the tangential-velocity point qTangent. -/
theorem thermalFluidFluxBC_branch_continuity_witness :
    outflowBranchRes qTangent = inflowBranchRes qTangent ∧
      computeQpResidual qTangent = 0 :=
  thermalFluidFluxBC_residual_branch_continuity qTangent
    (by norm_num [vdotn, vecQ, dot3, qTangent])

namespace HeatConvection

/-- Per-quadrature-point data for the HeatConvection exchange kernel. -/
structure Qp where
  test : ℚ
  phi : ℚ
  u : ℚ
  hs : ℚ
  other_temp : ℚ
  volfrac : ℚ
  specarea : ℚ

/-- The coupled-variable identifiers declared by HeatConvection. -/
structure Vars where
  hs_var : ℕ
  other_temp_var : ℕ
  volfrac_var : ℕ
  specarea_var : ℕ

/-- HeatConvection::computeQpResidual:
test * h * A * volfrac * (u - other_temp). -/
def computeQpResidual (q : Qp) : ℚ :=
  q.test * q.hs * q.specarea * q.volfrac * (q.u - q.other_temp)

/-- HeatConvection::computeQpJacobian. -/
def computeQpJacobian (q : Qp) : ℚ :=
  q.test * q.hs * q.specarea * q.volfrac * q.phi

/-- HeatConvection::computeQpOffDiagJacobian: sequential comparisons of
jvar against the coupled temperature, transfer coefficient, volume fraction
and specific area variable numbers, falling through to 0. -/
def computeQpOffDiagJacobian (v : Vars) (q : Qp) (jvar : ℕ) : ℚ :=
  if jvar = v.other_temp_var then
    -q.test * q.hs * q.specarea * q.volfrac * q.phi
  else if jvar = v.hs_var then
    q.test * q.phi * q.specarea * q.volfrac * (q.u - q.other_temp)
  else if jvar = v.volfrac_var then
    q.test * q.hs * q.specarea * q.phi * (q.u - q.other_temp)
  else if jvar = v.specarea_var then
    q.test * q.hs * q.phi * q.volfrac * (q.u - q.other_temp)
  else 0

end HeatConvection

open HeatConvection in
/-- Claim C7: at a quadrature point with h = 5, A = 3, volfrac = 1/2,
u = 400 and other_temp = 300 the HeatConvection residual equals test * 750,
and the off-diagonal Jacobian with respect to the coupled temperature
equals -(test * (15/2) * phi). -/
theorem heatConvection_scenario (test phi : ℚ) (v : HeatConvection.Vars) :
    computeQpResidual ⟨test, phi, 400, 5, 300, 1/2, 3⟩ = test * 750 ∧
    computeQpOffDiagJacobian v ⟨test, phi, 400, 5, 300, 1/2, 3⟩ v.other_temp_var
      = -(test * (15 / 2) * phi) := by
  constructor
  · unfold computeQpResidual
    ring
  · unfold computeQpOffDiagJacobian
    rw [if_pos rfl]
    ring

namespace HeatConduction

/-- Per-quadrature-point data for the HeatConduction kernel. -/
structure Qp where
  phi : ℚ
  grad_test : ℕ → ℚ
  grad_u : ℕ → ℚ
  grad_phi : ℕ → ℚ
  conductivity : ℚ
  volfrac : ℚ

/-- The coupled-variable identifiers declared by HeatConduction. -/
structure Vars where
  conductivity_var : ℕ
  volfrac_var : ℕ

/-- HeatConduction::computeQpResidual:
volfrac * k * grad_test . grad_u. -/
def computeQpResidual (q : Qp) : ℚ :=
  q.volfrac * q.conductivity * dot3 q.grad_test q.grad_u

/-- HeatConduction::computeQpJacobian. -/
def computeQpJacobian (q : Qp) : ℚ :=
  q.volfrac * q.conductivity * dot3 q.grad_test q.grad_phi

/-- HeatConduction::computeQpOffDiagJacobian: sequential comparisons of
jvar against the conductivity and volume fraction variable numbers,
falling through to 0. -/
def computeQpOffDiagJacobian (v : Vars) (q : Qp) (jvar : ℕ) : ℚ :=
  if jvar = v.conductivity_var then
    q.volfrac * q.phi * dot3 q.grad_test q.grad_u
  else if jvar = v.volfrac_var then
    q.phi * q.conductivity * dot3 q.grad_test q.grad_u
  else 0

end HeatConduction

/-- Claim C9: for each of the four kernels, the off-diagonal Jacobian is
exactly zero whenever jvar is none of that kernel's declared coupled
variables, for all quadrature-point inputs. -/
theorem offdiag_zero_for_uncoupled_vars :
    (∀ (v : HeatAdvectionConservative.Vars) (q : HeatAdvectionConservative.Qp)
        (jvar : ℕ),
      jvar ≠ v.density_var → jvar ≠ v.heat_cap_var → jvar ≠ v.volfrac_var →
      jvar ≠ v.ux_var → jvar ≠ v.uy_var → jvar ≠ v.uz_var →
      HeatAdvectionConservative.computeQpOffDiagJacobian v q jvar = 0) ∧
    (∀ (v : ThermalFluidFluxBC.Vars) (q : ThermalFluidFluxBC.Qp) (jvar : ℕ),
      jvar ≠ v.density_var → jvar ≠ v.heat_cap_var → jvar ≠ v.volfrac_var →
      jvar ≠ v.ux_var → jvar ≠ v.uy_var → jvar ≠ v.uz_var →
      jvar ≠ v.outside_temp_var →
      ThermalFluidFluxBC.computeQpOffDiagJacobian v q jvar = 0) ∧
    (∀ (v : HeatConvection.Vars) (q : HeatConvection.Qp) (jvar : ℕ),
      jvar ≠ v.hs_var → jvar ≠ v.other_temp_var → jvar ≠ v.volfrac_var →
      jvar ≠ v.specarea_var →
      HeatConvection.computeQpOffDiagJacobian v q jvar = 0) ∧
    (∀ (v : HeatConduction.Vars) (q : HeatConduction.Qp) (jvar : ℕ),
      jvar ≠ v.conductivity_var → jvar ≠ v.volfrac_var →
      HeatConduction.computeQpOffDiagJacobian v q jvar = 0) := by
  refine ⟨fun v q jvar h1 h2 h3 h4 h5 h6 => ?_,
          fun v q jvar h1 h2 h3 h4 h5 h6 h7 => ?_,
          fun v q jvar h1 h2 h3 h4 => ?_,
          fun v q jvar h1 h2 => ?_⟩
  · simp [HeatAdvectionConservative.computeQpOffDiagJacobian,
      h1, h2, h3, h4, h5, h6]
  · simp [ThermalFluidFluxBC.computeQpOffDiagJacobian, h4, h5, h6]
  · simp [HeatConvection.computeQpOffDiagJacobian, h1, h2, h3, h4]
  · simp [HeatConduction.computeQpOffDiagJacobian, h1, h2]

/-- Concrete distinct coupled-variable numbers for the advection kernel. -/
def advVarsA : HeatAdvectionConservative.Vars where
  density_var := 0
  heat_cap_var := 1
  volfrac_var := 2
  ux_var := 3
  uy_var := 4
  uz_var := 5

/-- Concrete coupled-variable numbers for HeatConvection. -/
def convVarsA : HeatConvection.Vars where
  hs_var := 0
  other_temp_var := 1
  volfrac_var := 2
  specarea_var := 3

/-- Concrete coupled-variable numbers for HeatConduction. -/
def condVarsA : HeatConduction.Vars where
  conductivity_var := 0
  volfrac_var := 1

/-- A concrete advection quadrature point. -/
def qAdvA : HeatAdvectionConservative.Qp where
  u := 5
  phi := 3
  grad_test := fun k => if k = 0 then 1 else 0
  density := 1
  heat_cap := 1
  volfrac := 1
  ux := 1
  uy := 0
  uz := 0

/-- A concrete convection quadrature point. -/
def qConvA : HeatConvection.Qp where
  test := 2
  phi := 3
  u := 400
  hs := 5
  other_temp := 300
  volfrac := 1 / 2
  specarea := 3

/-- A concrete conduction quadrature point. -/
def qCondA : HeatConduction.Qp where
  phi := 3
  grad_test := fun k => if k = 0 then 1 else 0
  grad_u := fun k => if k = 0 then 1 else 0
  grad_phi := fun k => if k = 0 then 1 else 0
  conductivity := 2
  volfrac := 1

/-- Witness for C9: an undeclared variable number 99 yields a zero
off-diagonal Jacobian in all four kernels. -/
theorem offdiag_zero_for_uncoupled_vars_witness :
    HeatAdvectionConservative.computeQpOffDiagJacobian advVarsA qAdvA 99 = 0 ∧
    ThermalFluidFluxBC.computeQpOffDiagJacobian bcVarsA qOut 99 = 0 ∧
    HeatConvection.computeQpOffDiagJacobian convVarsA qConvA 99 = 0 ∧
    HeatConduction.computeQpOffDiagJacobian condVarsA qCondA 99 = 0 :=
  ⟨offdiag_zero_for_uncoupled_vars.1 advVarsA qAdvA 99 (by decide) (by decide)
      (by decide) (by decide) (by decide) (by decide),
   offdiag_zero_for_uncoupled_vars.2.1 bcVarsA qOut 99 (by decide) (by decide)
      (by decide) (by decide) (by decide) (by decide) (by decide),
   offdiag_zero_for_uncoupled_vars.2.2.1 convVarsA qConvA 99 (by decide)
      (by decide) (by decide) (by decide),
   offdiag_zero_for_uncoupled_vars.2.2.2 condVarsA qCondA 99 (by decide)
      (by decide)⟩
